import Mathlib

/-!
Verification development for the CFRParser repository (src/CFRParser.py and
src/CFRToMd.py).

The repository walks a parsed CFR title XML tree and writes one JSON document
per section or appendix leaf.  We shallowly embed the parsed XML tree as an
inductive type, the BeautifulSoup queries used by the code (find, find_all,
the string property, attribute access), the urllib percent-quoting with its
default safe set, the Markdown renderer of CFRToMd.process_cfr_xml_element,
the deep-link builders, and the nested traversal of
CFRParser.fetch_and_parse_cfr_xml as a pure function from the parsed tree to
the ordered list of file writes it performs.
-/

namespace CFR

/-- A parsed XML tree: either a text node (a BeautifulSoup NavigableString)
or an element with a tag name, attributes and children, in document order. -/
inductive XNode where
  | text (s : String)
  | elem (tag : String) (attrs : List (String × String)) (children : List XNode)

mutual

/-- A node itself (when it is an element with the tag) followed by its
matching descendants, in document order. -/
def selfAndBelow (tag : String) : XNode → List XNode
  | .text _ => []
  | .elem t a cs =>
      (if t = tag then [XNode.elem t a cs] else []) ++ findAllL tag cs

/-- All element descendants (in document order, i.e. pre-order) of the nodes
of a list that carry the given tag, descending into matches as well: the
semantics of BeautifulSoup find_all over a list of children. -/
def findAllL (tag : String) : List XNode → List XNode
  | [] => []
  | n :: ns => selfAndBelow tag n ++ findAllL tag ns

end

/-- BeautifulSoup element.find_all(tag): all descendants with the tag. -/
def findAllNode (tag : String) (n : XNode) : List XNode :=
  match n with
  | .text _ => []
  | .elem _ _ cs => findAllL tag cs

/-- BeautifulSoup element.find(tag) and attribute-style access element.TAG:
the first descendant with the tag, None when there is none. -/
def findFirstNode (tag : String) (n : XNode) : Option XNode :=
  (findAllNode tag n).head?

/-- The BeautifulSoup string property: the string of a text node is itself;
the string of an element with a single child is the string of that child;
any other element has no string (Python None). -/
def nodeString : XNode → Option String
  | .text s => some s
  | .elem _ _ [c] => nodeString c
  | .elem _ _ [] => none
  | .elem _ _ (_ :: _ :: _) => none

/-- Attribute access element["N"].  In the source a missing attribute would
raise KeyError; every input considered in this development carries the
attribute, and the model totalises the lookup with the empty string. -/
def getAttrN : XNode → String
  | .text _ => ""
  | .elem _ attrs _ => (attrs.lookup "N").getD ""

/-- Characters passed through unchanged by urllib.parse.quote with the
default safe value: the unreserved ASCII characters (letters, digits and
the four marks) together with the default safe character, the slash.
Stated on code points: 45 is the hyphen, 46 the period, 47 the slash,
95 the underscore, 126 the tilde. -/
def isUrlSafe (c : Char) : Bool :=
  (65 ≤ c.toNat && c.toNat ≤ 90) || (97 ≤ c.toNat && c.toNat ≤ 122) ||
  (48 ≤ c.toNat && c.toNat ≤ 57) ||
  c.toNat = 45 || c.toNat = 46 || c.toNat = 47 || c.toNat = 95 || c.toNat = 126

/-- Uppercase hexadecimal digit for a value below sixteen, as used by the
percent-escapes of urllib.parse.quote. -/
def hexDigitUpper (n : Nat) : Char :=
  if n < 10 then Char.ofNat (48 + n) else Char.ofNat (55 + n)

/-- The UTF-8 encoding of a code point, as a list of byte values. -/
def utf8Bytes (n : Nat) : List Nat :=
  if n < 128 then [n]
  else if n < 2048 then [192 + n / 64, 128 + n % 64]
  else if n < 65536 then [224 + n / 4096, 128 + n / 64 % 64, 128 + n % 64]
  else [240 + n / 262144, 128 + n / 4096 % 64, 128 + n / 64 % 64, 128 + n % 64]

/-- The percent-escape chunk for one byte. -/
def pctChunk (b : Nat) : List Char :=
  ['%', hexDigitUpper (b / 16), hexDigitUpper (b % 16)]

/-- urllib.parse.quote on one character: safe characters pass through,
every other character is UTF-8 encoded and each byte percent-escaped. -/
def quoteChar (c : Char) : List Char :=
  if isUrlSafe c then [c] else (utf8Bytes c.toNat).flatMap pctChunk

/-- urllib.parse.quote with the default safe set. -/
def quote (s : String) : String :=
  ⟨s.data.flatMap quoteChar⟩

/-- Python str(x) for an optional string, as interpolated into an f-string:
Python None prints as the four letters None. -/
def pyShow : Option String → String
  | some s => s
  | none => "None"

/-- The title of CFRToMd.process_cfr_xml_element:
element.HEAD.string if element.HEAD else "NO TITLE", as later interpolated
into the f-string (a present HEAD whose string is None prints as None). -/
def render_title (element : XNode) : String :=
  match findFirstNode "HEAD" element with
  | none => "NO TITLE"
  | some h => pyShow (nodeString h)

/-- One entry of the paragraphs list of CFRToMd.process_cfr_xml_element:
p.string when truthy (present and nonempty), otherwise a newline. -/
def paragraphEntry (p : XNode) : String :=
  match nodeString p with
  | some s => if s = "" then "\n" else s
  | none => "\n"

/-- The joined paragraph text of CFRToMd.process_cfr_xml_element. -/
def render_text (element : XNode) : String :=
  String.intercalate "\n" ((findAllNode "P" element).map paragraphEntry)

/-- The citation of CFRToMd.process_cfr_xml_element:
element.CITA.string if element.CITA else "NO CITE", as interpolated. -/
def render_cita (element : XNode) : String :=
  match findFirstNode "CITA" element with
  | none => "NO CITE"
  | some ct => pyShow (nodeString ct)

/-- CFRToMd.process_cfr_xml_element: the Markdown fragment returned for one
leaf node, with the exact whitespace of the triple-quoted f-string of the
source (a leading newline, four spaces of indentation on every line, four
spaces on the two separator lines and four trailing spaces). -/
def process_cfr_xml_element (element : XNode) : String :=
  "\n    # " ++ render_title element ++ "\n    \n    " ++ render_text element ++
    "\n    \n    **" ++ render_cita element ++ "**\n    "

/-- CFRParser.get_ecfr_link_to_appendix: the deep link into the eCFR viewer
for an appendix.  Only the appendix number is percent-quoted. -/
def get_ecfr_link_to_appendix (title_num : Nat) (subtitle_num chapter_num
    part_num subpart_num appendix_num : String) : String :=
  "https://www.ecfr.gov/current/title-" ++ toString title_num ++ "/subtitle-" ++
    subtitle_num ++ "/chapter-" ++ chapter_num ++ "/part-" ++ part_num ++
    "/subpart-" ++ subpart_num ++ "/appendix-" ++ quote appendix_num

/-- CFRParser.get_ecfr_link_to_section: the deep link into the eCFR viewer
for a section.  Only the section number is percent-quoted. -/
def get_ecfr_link_to_section (title_num : Nat) (subtitle_num chapter_num
    part_num subpart_num section_num : String) : String :=
  "https://www.ecfr.gov/current/title-" ++ toString title_num ++ "/subtitle-" ++
    subtitle_num ++ "/chapter-" ++ chapter_num ++ "/part-" ++ part_num ++
    "/subpart-" ++ subpart_num ++ "/section-" ++ quote section_num

/-- A JSON value as serialised by json.dumps for the fields that occur in the
output documents: strings, integers and null (a Python None description). -/
inductive JVal where
  | str (s : String)
  | num (n : Nat)
  | null
deriving DecidableEq, Repr

/-- The JSON value of an optional description string: Python None serialises
as null. -/
def jsonOfOpt : Option String → JVal
  | some s => .str s
  | none => .null

/-- The description extracted for a hierarchy node:
x.HEAD.string if x.HEAD else "".  A missing HEAD gives the empty string; a
present HEAD whose string property is None gives Python None. -/
def headDescription (n : XNode) : Option String :=
  match findFirstNode "HEAD" n with
  | none => some ""
  | some h => nodeString h

/-- One file write performed by the walker: the path handed to Path(...) and
the two fields of the result dict serialised into the file. -/
structure Write where
  path : String
  page_content : String
  metadata : List (String × JVal)
deriving DecidableEq, Repr

/-- The output path used for both leaf kinds, with the f-string of the source:
only the leaf code is percent-quoted. -/
def leafFilePath (title_num : Nat) (subtitle_number chapt_number
    subchapter_number part_number sub_part_number leaf_number : String) : String :=
  "./documents/title_" ++ toString title_num ++ "/subtitle_" ++ subtitle_number ++
    "/chap_" ++ chapt_number ++ "/subchapt_" ++ subchapter_number ++
    "/part_" ++ part_number ++ "/subpart_" ++ sub_part_number ++ "/" ++
    quote leaf_number ++ ".json"

/-- The metadata dict literal built for a section leaf, in source order. -/
def sectionMetadata (title_num : Nat) (title_description : Option String)
    (chapt_number : String) (chapt_description : Option String)
    (subchapter_number : String) (subchapter_description : Option String)
    (part_number : String) (part_description : Option String)
    (sub_part_number : String) (sub_part_description : Option String)
    (section_number : String) (section_description : Option String)
    (url : String) : List (String × JVal) :=
  [("title_number", .num title_num),
   ("title_description", jsonOfOpt title_description),
   ("chapter_number", .str chapt_number),
   ("chapter_description", jsonOfOpt chapt_description),
   ("subchapter_number", .str subchapter_number),
   ("subchapter_description", jsonOfOpt subchapter_description),
   ("part_number", .str part_number),
   ("part_description", jsonOfOpt part_description),
   ("sub_part_number", .str sub_part_number),
   ("sub_part_description", jsonOfOpt sub_part_description),
   ("section_number", .str section_number),
   ("section_description", jsonOfOpt section_description),
   ("url", .str url)]

/-- The metadata dict literal built for an appendix leaf, in source order. -/
def appendixMetadata (title_num : Nat) (title_description : Option String)
    (chapt_number : String) (chapt_description : Option String)
    (subchapter_number : String) (subchapter_description : Option String)
    (part_number : String) (part_description : Option String)
    (sub_part_number : String) (sub_part_description : Option String)
    (appendix_number : String) (appendix_description : Option String)
    (url : String) : List (String × JVal) :=
  [("title_number", .num title_num),
   ("title_description", jsonOfOpt title_description),
   ("chapter_number", .str chapt_number),
   ("chapter_description", jsonOfOpt chapt_description),
   ("subchapter_number", .str subchapter_number),
   ("subchapter_description", jsonOfOpt subchapter_description),
   ("part_number", .str part_number),
   ("part_description", jsonOfOpt part_description),
   ("sub_part_number", .str sub_part_number),
   ("sub_part_description", jsonOfOpt sub_part_description),
   ("appendix_number", .str appendix_number),
   ("appendix_description", jsonOfOpt appendix_description),
   ("url", .str url)]

/-- The write performed for one DIV8 section leaf. -/
def sectionWrite (title_num : Nat) (title_description : Option String)
    (subtitle_number chapt_number : String) (chapt_description : Option String)
    (subchapter_number : String) (subchapter_description : Option String)
    (part_number : String) (part_description : Option String)
    (sub_part_number : String) (sub_part_description : Option String)
    (sec : XNode) : Write :=
  { path := leafFilePath title_num subtitle_number chapt_number
      subchapter_number part_number sub_part_number (getAttrN sec),
    page_content := process_cfr_xml_element sec ++ "\n\n__" ++
      get_ecfr_link_to_section title_num subtitle_number chapt_number
        part_number sub_part_number (getAttrN sec) ++ "__",
    metadata := sectionMetadata title_num title_description chapt_number
      chapt_description subchapter_number subchapter_description part_number
      part_description sub_part_number sub_part_description (getAttrN sec)
      (headDescription sec)
      (get_ecfr_link_to_section title_num subtitle_number chapt_number
        part_number sub_part_number (getAttrN sec)) }

/-- The write performed for one DIV9 appendix leaf. -/
def appendixWrite (title_num : Nat) (title_description : Option String)
    (subtitle_number chapt_number : String) (chapt_description : Option String)
    (subchapter_number : String) (subchapter_description : Option String)
    (part_number : String) (part_description : Option String)
    (sub_part_number : String) (sub_part_description : Option String)
    (appendix : XNode) : Write :=
  { path := leafFilePath title_num subtitle_number chapt_number
      subchapter_number part_number sub_part_number (getAttrN appendix),
    page_content := process_cfr_xml_element appendix ++ "\n\n__" ++
      get_ecfr_link_to_appendix title_num subtitle_number chapt_number
        part_number sub_part_number (getAttrN appendix) ++ "__",
    metadata := appendixMetadata title_num title_description chapt_number
      chapt_description subchapter_number subchapter_description part_number
      part_description sub_part_number sub_part_description (getAttrN appendix)
      (headDescription appendix)
      (get_ecfr_link_to_appendix title_num subtitle_number chapt_number
        part_number sub_part_number (getAttrN appendix)) }

/-- The writes of the two innermost loops of CFRParser.fetch_and_parse_cfr_xml:
for one subpart node, all its DIV8 section writes followed by all its DIV9
appendix writes. -/
def subpartWrites (title_num : Nat) (title_description : Option String)
    (subtitle_number chapt_number : String) (chapt_description : Option String)
    (subchapter_number : String) (subchapter_description : Option String)
    (part_number : String) (part_description : Option String)
    (sub_part : XNode) : List Write :=
  ((findAllNode "DIV8" sub_part).map fun sec =>
    sectionWrite title_num title_description subtitle_number chapt_number
      chapt_description subchapter_number subchapter_description part_number
      part_description (getAttrN sub_part) (headDescription sub_part) sec) ++
  ((findAllNode "DIV9" sub_part).map fun appendix =>
    appendixWrite title_num title_description subtitle_number chapt_number
      chapt_description subchapter_number subchapter_description part_number
      part_description (getAttrN sub_part) (headDescription sub_part) appendix)

/-- The subpart loop of the walker.  It scans the whole document root for
DIV6 nodes, not the current part. -/
def partWrites (title_num : Nat) (root : XNode) (title_description : Option String)
    (subtitle_number chapt_number : String) (chapt_description : Option String)
    (subchapter_number : String) (subchapter_description : Option String)
    (part : XNode) : List Write :=
  (findAllNode "DIV6" root).flatMap
    (subpartWrites title_num title_description subtitle_number chapt_number
      chapt_description subchapter_number subchapter_description
      (getAttrN part) (headDescription part))

/-- The part loop of the walker.  It scans the whole document root for DIV5
nodes, not the current subchapter. -/
def subchapterWrites (title_num : Nat) (root : XNode)
    (title_description : Option String) (subtitle_number chapt_number : String)
    (chapt_description : Option String) (subchapter : XNode) : List Write :=
  (findAllNode "DIV5" root).flatMap
    (partWrites title_num root title_description subtitle_number chapt_number
      chapt_description (getAttrN subchapter) (headDescription subchapter))

/-- The subchapter loop of the walker: DIV4 nodes inside the chapter. -/
def chapterWrites (title_num : Nat) (root : XNode)
    (title_description : Option String) (subtitle_number : String)
    (chapter : XNode) : List Write :=
  (findAllNode "DIV4" chapter).flatMap
    (subchapterWrites title_num root title_description subtitle_number
      (getAttrN chapter) (headDescription chapter))

/-- The chapter loop of the walker: DIV3 nodes inside the subtitle. -/
def subtitleWrites (title_num : Nat) (root : XNode)
    (title_description : Option String) (subtitle : XNode) : List Write :=
  (findAllNode "DIV3" subtitle).flatMap
    (chapterWrites title_num root title_description (getAttrN subtitle))

/-- The subtitle loop of the walker: DIV2 nodes of the whole document. -/
def titleWrites (title_num : Nat) (root : XNode)
    (title_description : Option String) : List Write :=
  (findAllNode "DIV2" root).flatMap (subtitleWrites title_num root title_description)

/-- CFRParser.fetch_and_parse_cfr_xml, after the XML text has been loaded and
parsed into the tree root: the ordered list of file writes performed by the
nested traversal.  The source first reads root.find("DIV1") and dereferences
it, so a document without a DIV1 gives no result (the Python raises). -/
def fetch_and_parse_cfr_xml (title_num : Nat) (root : XNode) :
    Option (List Write) :=
  (findFirstNode "DIV1" root).map fun title =>
    titleWrites title_num root (headDescription title)

/-- An HTTP response as seen by CFRParser.get_cfr_title_xml: the status
code and the body text. -/
structure Response where
  status_code : Nat
  text : String

/-- The result logic of CFRParser.get_cfr_title_xml applied to the response
of the full-title request: the body on status 200, otherwise a logged
failure surfaced as None.  No exception is raised and no retry happens. -/
def get_cfr_title_xml (response : Response) : Option String :=
  if response.status_code = 200 then some response.text else none

/-- The keys of the metadata dict of a section write, in source order. -/
def sectionMetaKeys : List String :=
  ["title_number", "title_description", "chapter_number", "chapter_description",
   "subchapter_number", "subchapter_description", "part_number",
   "part_description", "sub_part_number", "sub_part_description",
   "section_number", "section_description", "url"]

/-- The keys of the metadata dict of an appendix write, in source order. -/
def appendixMetaKeys : List String :=
  ["title_number", "title_description", "chapter_number", "chapter_description",
   "subchapter_number", "subchapter_description", "part_number",
   "part_description", "sub_part_number", "sub_part_description",
   "appendix_number", "appendix_description", "url"]

/-! ### Concrete example documents -/

/-- The single section leaf of the end-to-end scenario of the spec: code 1,
heading Purpose, one paragraph, one citation. -/
def purposeSection : XNode :=
  .elem "DIV8" [("N", "1")]
    [.elem "HEAD" [] [.text "Purpose"],
     .elem "P" [] [.text "This part explains X."],
     .elem "CITA" [] [.text "[60 FR 1234]"]]

/-- A title document with exactly one subtitle, chapter, subchapter, part
and subpart, and one section leaf. -/
def oneLeafDoc : XNode :=
  .elem "[document]" []
    [.elem "DIV1" [("N", "29")]
      [.elem "HEAD" [] [.text "Title 29"],
       .elem "DIV2" [("N", "A")]
         [.elem "HEAD" [] [.text "Subtitle A"],
          .elem "DIV3" [("N", "I")]
            [.elem "HEAD" [] [.text "Chapter I"],
             .elem "DIV4" [("N", "A")]
               [.elem "HEAD" [] [.text "Subchapter A"],
                .elem "DIV5" [("N", "1")]
                  [.elem "HEAD" [] [.text "Part 1"],
                   .elem "DIV6" [("N", "A")]
                     [.elem "HEAD" [] [.text "Subpart A"],
                      purposeSection]]]]]]]

/-- A title document with one subchapter but two parts: the second, empty
part duplicates the output of the single leaf. -/
def twoPartsDoc : XNode :=
  .elem "[document]" []
    [.elem "DIV1" [("N", "29")]
      [.elem "DIV2" [("N", "A")]
        [.elem "DIV3" [("N", "I")]
          [.elem "DIV4" [("N", "A")]
            [.elem "DIV5" [("N", "1")]
              [.elem "DIV6" [("N", "A")] [purposeSection]],
             .elem "DIV5" [("N", "2")] []]]]]]

/-- A title document whose subpart and section codes contain slashes, making
two distinct leaves collide on the same output path. -/
def slashDoc : XNode :=
  .elem "[document]" []
    [.elem "DIV1" [("N", "29")]
      [.elem "DIV2" [("N", "A")]
        [.elem "DIV3" [("N", "I")]
          [.elem "DIV4" [("N", "A")]
            [.elem "DIV5" [("N", "1")]
              [.elem "DIV6" [("N", "S")]
                [.elem "DIV8" [("N", "a/b")] [.elem "P" [] [.text "x"]]],
               .elem "DIV6" [("N", "S/a")]
                [.elem "DIV8" [("N", "b")] [.elem "P" [] [.text "y"]]]]]]]]]

/-- A title document whose subtitle code XSUB appears at no other level, so
that its absence from the metadata is visible. -/
def uniqueSubtitleDoc : XNode :=
  .elem "[document]" []
    [.elem "DIV1" [("N", "29")]
      [.elem "DIV2" [("N", "XSUB")]
        [.elem "DIV3" [("N", "I")]
          [.elem "DIV4" [("N", "A")]
            [.elem "DIV5" [("N", "1")]
              [.elem "DIV6" [("N", "B")] [purposeSection]]]]]]]

/-- A section with three paragraphs whose middle paragraph has no text. -/
def threeParaSection : XNode :=
  .elem "DIV8" [("N", "5")]
    [.elem "P" [] [.text "A"],
     .elem "P" [] [],
     .elem "P" [] [.text "B"]]

/-- A leaf with no heading and no citation at all. -/
def bareSection : XNode :=
  .elem "DIV8" [("N", "7")] []

/-- A leaf whose HEAD is present but holds nested markup, so that the
BeautifulSoup string property of the heading is None. -/
def markupHeadSection : XNode :=
  .elem "DIV8" [("N", "9")]
    [.elem "HEAD" [] [.elem "E" [] [.text "Pur"], .text "pose"],
     .elem "CITA" [] [.text "[61 FR 9]"]]

/-! ### Decoding the percent-quoting

To show that the quoting used in deep links and file names is injective we
build the decoding direction: percent-escape chunks back to bytes, and the
UTF-8 byte sequence back to code points. -/

/-- Value of an uppercase hexadecimal digit character. -/
def hexVal (c : Char) : Option Nat :=
  if 48 ≤ c.toNat ∧ c.toNat ≤ 57 then some (c.toNat - 48)
  else if 65 ≤ c.toNat ∧ c.toNat ≤ 70 then some (c.toNat - 55)
  else none

mutual

/-- Decode a percent-quoted character list back to the byte values it
spells: a percent sign starts a two-digit escape, a safe character stands
for its own code point, anything else is rejected. -/
def decodePct : List Char → Option (List Nat)
  | [] => some []
  | c :: rest =>
    if c = '%' then decodeEsc rest
    else if isUrlSafe c then (decodePct rest).map (c.toNat :: ·)
    else none
termination_by l => l.length

/-- Decode the two hexadecimal digits following a percent sign. -/
def decodeEsc : List Char → Option (List Nat)
  | c1 :: c2 :: rest =>
    (match hexVal c1, hexVal c2 with
     | some h1, some h2 => (decodePct rest).map ((16 * h1 + h2) :: ·)
     | _, _ => none)
  | _ => none
termination_by l => l.length

end

mutual

/-- Decode a UTF-8 byte sequence back to code points. -/
def decodeUtf8 : List Nat → Option (List Nat)
  | [] => some []
  | b0 :: rest =>
    if b0 < 128 then (decodeUtf8 rest).map (b0 :: ·)
    else if b0 < 224 then decodeU2 b0 rest
    else if b0 < 240 then decodeU3 b0 rest
    else decodeU4 b0 rest
termination_by l => l.length

/-- Decode the continuation byte of a two-byte UTF-8 sequence. -/
def decodeU2 (b0 : Nat) : List Nat → Option (List Nat)
  | b1 :: rest => (decodeUtf8 rest).map (((b0 - 192) * 64 + (b1 - 128)) :: ·)
  | _ => none
termination_by l => l.length

/-- Decode the continuation bytes of a three-byte UTF-8 sequence. -/
def decodeU3 (b0 : Nat) : List Nat → Option (List Nat)
  | b1 :: b2 :: rest =>
      (decodeUtf8 rest).map
        (((b0 - 224) * 4096 + (b1 - 128) * 64 + (b2 - 128)) :: ·)
  | _ => none
termination_by l => l.length

/-- Decode the continuation bytes of a four-byte UTF-8 sequence. -/
def decodeU4 (b0 : Nat) : List Nat → Option (List Nat)
  | b1 :: b2 :: b3 :: rest =>
      (decodeUtf8 rest).map
        (((b0 - 240) * 262144 + (b1 - 128) * 4096 + (b2 - 128) * 64 +
          (b3 - 128)) :: ·)
  | _ => none
termination_by l => l.length

end

/-- Split a character list at every slash. -/
def splitSl : List Char → List (List Char)
  | [] => [[]]
  | c :: rest =>
    if c = '/' then [] :: splitSl rest
    else (c :: (splitSl rest).headD []) :: (splitSl rest).tail

/-- Total number of leaves (DIV8 sections plus DIV9 appendices) over all
DIV6 subpart nodes of the whole document. -/
def subpartLeafTotal (root : XNode) : Nat :=
  ((findAllNode "DIV6" root).map fun sp =>
    (findAllNode "DIV8" sp).length + (findAllNode "DIV9" sp).length).sum

/-- Number of subchapter iterations of the walker: DIV4 nodes reached
through a DIV2 subtitle and a DIV3 chapter. -/
def subchapterCount (root : XNode) : Nat :=
  ((findAllNode "DIV2" root).flatMap fun subtitle =>
    (findAllNode "DIV3" subtitle).flatMap fun chapter =>
      findAllNode "DIV4" chapter).length

theorem hexVal_hexDigitUpper (n : Nat) (h : n < 16) :
    hexVal (hexDigitUpper n) = some n := by
  interval_cases n <;> decide

theorem char_toNat_lt (c : Char) : c.toNat < 1114112 := by
  rcases c.valid with h | ⟨h1, h2⟩
  · exact Nat.lt_trans h (by decide)
  · exact h2

theorem isUrlSafe_ranges (c : Char) (hc : isUrlSafe c = true) :
    (65 ≤ c.toNat ∧ c.toNat ≤ 90) ∨ (97 ≤ c.toNat ∧ c.toNat ≤ 122) ∨
    (48 ≤ c.toNat ∧ c.toNat ≤ 57) ∨
    c.toNat = 45 ∨ c.toNat = 46 ∨ c.toNat = 47 ∨ c.toNat = 95 ∨ c.toNat = 126 := by
  simp only [isUrlSafe, Bool.or_eq_true, Bool.and_eq_true, decide_eq_true_eq] at hc
  tauto

theorem isUrlSafe_lt_128 (c : Char) (hc : isUrlSafe c = true) : c.toNat < 128 := by
  have := isUrlSafe_ranges c hc
  omega

theorem decodePct_nil : decodePct [] = some [] := by rw [decodePct]

theorem decodePct_safe (c : Char) (hc : isUrlSafe c = true) (l : List Char) :
    decodePct (c :: l) = (decodePct l).map (c.toNat :: ·) := by
  have hne : ¬ c = '%' := by
    intro h
    rw [h] at hc
    exact absurd hc (by decide)
  rw [decodePct, if_neg hne, if_pos hc]

theorem decodeEsc_cons (c1 c2 : Char) (l : List Char) (a b : Nat)
    (h1 : hexVal c1 = some a) (h2 : hexVal c2 = some b) :
    decodeEsc (c1 :: c2 :: l) = (decodePct l).map ((16 * a + b) :: ·) := by
  rw [decodeEsc, h1, h2]

theorem decodePct_pct (c1 c2 : Char) (l : List Char) (a b : Nat)
    (h1 : hexVal c1 = some a) (h2 : hexVal c2 = some b) :
    decodePct ('%' :: c1 :: c2 :: l) = (decodePct l).map ((16 * a + b) :: ·) := by
  rw [decodePct, if_pos rfl, decodeEsc_cons c1 c2 l a b h1 h2]

theorem decodePct_pctChunk (b : Nat) (hb : b < 256) (l : List Char) :
    decodePct (pctChunk b ++ l) = (decodePct l).map (b :: ·) := by
  have h1 := hexVal_hexDigitUpper (b / 16) (by omega)
  have h2 := hexVal_hexDigitUpper (b % 16) (by omega)
  have hb16 : 16 * (b / 16) + b % 16 = b := by omega
  show decodePct ('%' :: hexDigitUpper (b / 16) :: hexDigitUpper (b % 16) :: l) = _
  rw [decodePct_pct _ _ _ _ _ h1 h2]
  simp only [hb16]

theorem decodePct_chunks (bs : List Nat) (hbs : ∀ b ∈ bs, b < 256)
    (l : List Char) :
    decodePct (bs.flatMap pctChunk ++ l) = (decodePct l).map (bs ++ ·) := by
  induction bs with
  | nil =>
    simp only [List.flatMap_nil, List.nil_append]
    cases decodePct l <;> rfl
  | cons b bs ih =>
    rw [List.flatMap_cons, List.append_assoc,
      decodePct_pctChunk b (hbs b (by simp)) _,
      ih (fun x hx => hbs x (by simp [hx]))]
    cases decodePct l <;> simp

theorem utf8Bytes_lt (n : Nat) (hn : n < 1114112) :
    ∀ b ∈ utf8Bytes n, b < 256 := by
  intro b hb
  unfold utf8Bytes at hb
  split_ifs at hb <;> simp at hb <;> omega

theorem decodeUtf8_nil : decodeUtf8 [] = some [] := by rw [decodeUtf8]

theorem decodeUtf8_small (b0 : Nat) (h : b0 < 128) (l : List Nat) :
    decodeUtf8 (b0 :: l) = (decodeUtf8 l).map (b0 :: ·) := by
  rw [decodeUtf8, if_pos h]

theorem decodeUtf8_two (b0 b1 : Nat) (h1 : ¬ b0 < 128) (h2 : b0 < 224)
    (l : List Nat) :
    decodeUtf8 (b0 :: b1 :: l) =
      (decodeUtf8 l).map (((b0 - 192) * 64 + (b1 - 128)) :: ·) := by
  rw [decodeUtf8, if_neg h1, if_pos h2, decodeU2]

theorem decodeUtf8_three (b0 b1 b2 : Nat) (h1 : ¬ b0 < 128) (h2 : ¬ b0 < 224)
    (h3 : b0 < 240) (l : List Nat) :
    decodeUtf8 (b0 :: b1 :: b2 :: l) =
      (decodeUtf8 l).map
        (((b0 - 224) * 4096 + (b1 - 128) * 64 + (b2 - 128)) :: ·) := by
  rw [decodeUtf8, if_neg h1, if_neg h2, if_pos h3, decodeU3]

theorem decodeUtf8_four (b0 b1 b2 b3 : Nat) (h1 : ¬ b0 < 128)
    (h2 : ¬ b0 < 224) (h3 : ¬ b0 < 240) (l : List Nat) :
    decodeUtf8 (b0 :: b1 :: b2 :: b3 :: l) =
      (decodeUtf8 l).map
        (((b0 - 240) * 262144 + (b1 - 128) * 4096 + (b2 - 128) * 64 +
          (b3 - 128)) :: ·) := by
  rw [decodeUtf8, if_neg h1, if_neg h2, if_neg h3, decodeU4]

theorem decodeUtf8_utf8Bytes (n : Nat) (hn : n < 1114112) (l : List Nat) :
    decodeUtf8 (utf8Bytes n ++ l) = (decodeUtf8 l).map (n :: ·) := by
  unfold utf8Bytes
  split_ifs with h1 h2 h3
  · show decodeUtf8 (n :: l) = _
    rw [decodeUtf8_small n h1]
  · show decodeUtf8 ((192 + n / 64) :: (128 + n % 64) :: l) = _
    rw [decodeUtf8_two _ _ (by omega) (by omega)]
    have e : (192 + n / 64 - 192) * 64 + (128 + n % 64 - 128) = n := by omega
    simp only [e]
  · show decodeUtf8 ((224 + n / 4096) :: (128 + n / 64 % 64) :: (128 + n % 64) :: l) = _
    rw [decodeUtf8_three _ _ _ (by omega) (by omega) (by omega)]
    have e : (224 + n / 4096 - 224) * 4096 + (128 + n / 64 % 64 - 128) * 64 +
        (128 + n % 64 - 128) = n := by omega
    simp only [e]
  · show decodeUtf8 ((240 + n / 262144) :: (128 + n / 4096 % 64) ::
      (128 + n / 64 % 64) :: (128 + n % 64) :: l) = _
    rw [decodeUtf8_four _ _ _ _ (by omega) (by omega) (by omega)]
    have e : (240 + n / 262144 - 240) * 262144 + (128 + n / 4096 % 64 - 128) * 4096 +
        (128 + n / 64 % 64 - 128) * 64 + (128 + n % 64 - 128) = n := by omega
    simp only [e]

theorem decodePct_quote (l : List Char) :
    decodePct (l.flatMap quoteChar) =
      some (l.flatMap fun c => utf8Bytes c.toNat) := by
  induction l with
  | nil => exact decodePct_nil
  | cons c cs ih =>
    rw [List.flatMap_cons, List.flatMap_cons]
    by_cases hc : isUrlSafe c
    · have hu : utf8Bytes c.toNat = [c.toNat] := by
        unfold utf8Bytes
        rw [if_pos (isUrlSafe_lt_128 c hc)]
      rw [show quoteChar c = [c] from by simp [quoteChar, hc],
        List.singleton_append, decodePct_safe c hc, ih, hu]
      rfl
    · have hq : quoteChar c = (utf8Bytes c.toNat).flatMap pctChunk := by
        simp [quoteChar, hc]
      rw [hq, decodePct_chunks _ (utf8Bytes_lt _ (char_toNat_lt c)) _, ih]
      rfl

theorem decodeUtf8_quoteBytes (l : List Char) :
    decodeUtf8 (l.flatMap fun c => utf8Bytes c.toNat) =
      some (l.map Char.toNat) := by
  induction l with
  | nil => exact decodeUtf8_nil
  | cons c cs ih =>
    rw [List.flatMap_cons, decodeUtf8_utf8Bytes _ (char_toNat_lt c), ih]
    rfl

theorem char_toNat_inj {a b : Char} (h : a.toNat = b.toNat) : a = b :=
  Char.ext (UInt32.ext h)

theorem hexDigitUpper_ne_slash (n : Nat) (h : n < 16) : hexDigitUpper n ≠ '/' := by
  interval_cases n <;> decide

/-- Quoting a string without slashes yields a string without slashes: the
safe characters pass through and escape chunks use only the percent sign
and hexadecimal digits. -/
theorem quote_noslash (s : String) (h : '/' ∉ s.data) : '/' ∉ (quote s).data := by
  intro hm
  rw [show (quote s).data = s.data.flatMap quoteChar from rfl] at hm
  obtain ⟨c, hc, hqc⟩ := List.mem_flatMap.mp hm
  by_cases hsafe : isUrlSafe c
  · rw [show quoteChar c = [c] from by simp [quoteChar, hsafe]] at hqc
    simp at hqc
    exact h (hqc ▸ hc)
  · rw [show quoteChar c = (utf8Bytes c.toNat).flatMap pctChunk from by
      simp [quoteChar, hsafe]] at hqc
    obtain ⟨b, hb, hpb⟩ := List.mem_flatMap.mp hqc
    have hb256 := utf8Bytes_lt c.toNat (char_toNat_lt c) b hb
    rcases List.mem_cons.mp hpb with e | hpb2
    · exact absurd e (by decide)
    rcases List.mem_cons.mp hpb2 with e | hpb3
    · exact hexDigitUpper_ne_slash (b / 16) (by omega) e.symm
    rcases List.mem_cons.mp hpb3 with e | hpb4
    · exact hexDigitUpper_ne_slash (b % 16) (by omega) e.symm
    simp at hpb4

/-- The percent-quoting function is injective: the decoding functions above
recover the code points of the input. -/
theorem quote_injective (s t : String) (h : quote s = quote t) : s = t := by
  apply String.ext
  have hd : s.data.flatMap quoteChar = t.data.flatMap quoteChar := by
    simpa [quote] using congrArg String.data h
  have h1 := decodePct_quote s.data
  rw [hd, decodePct_quote t.data] at h1
  have hb : s.data.flatMap (fun c => utf8Bytes c.toNat) =
      t.data.flatMap (fun c => utf8Bytes c.toNat) := (Option.some.inj h1).symm
  have h3 := decodeUtf8_quoteBytes s.data
  rw [hb, decodeUtf8_quoteBytes t.data] at h3
  have hm : s.data.map Char.toNat = t.data.map Char.toNat :=
    (Option.some.inj h3).symm
  exact List.map_injective_iff.mpr (fun a b hab => char_toNat_inj hab) hm

/-! ### Splitting paths at slashes

The output file path joins its components with slashes and only the leaf
code is quoted.  Splitting at slashes recovers the components whenever the
codes themselves contain no slash, which gives the conditional injectivity
of the path function. -/

theorem splitSl_ne_nil (l : List Char) : splitSl l ≠ [] := by
  cases l with
  | nil => simp [splitSl]
  | cons c rest =>
    rw [splitSl]
    split_ifs <;> simp

theorem splitSl_slash (l : List Char) : splitSl ('/' :: l) = [] :: splitSl l := by
  rw [splitSl, if_pos rfl]

theorem splitSl_append (l1 l2 : List Char) (h : '/' ∉ l1) :
    splitSl (l1 ++ l2) = (l1 ++ (splitSl l2).headD []) :: (splitSl l2).tail := by
  induction l1 with
  | nil =>
    obtain ⟨a, as, e⟩ := List.exists_cons_of_ne_nil (splitSl_ne_nil l2)
    rw [List.nil_append, e]
    simp
  | cons c cs ih =>
    have hc : ¬ c = '/' := fun e => h (by simp [e])
    rw [List.cons_append, splitSl, if_neg hc, ih (fun m => h (by simp [m]))]
    simp

theorem splitSl_seg (l1 rest : List Char) (h : '/' ∉ l1) :
    splitSl (l1 ++ '/' :: rest) = l1 :: splitSl rest := by
  rw [splitSl_append _ _ h, splitSl_slash]
  simp

theorem splitSl_seg2 (l1 l2 rest : List Char) (h1 : '/' ∉ l1) (h2 : '/' ∉ l2) :
    splitSl (l1 ++ (l2 ++ '/' :: rest)) = (l1 ++ l2) :: splitSl rest := by
  rw [splitSl_append _ _ h1, splitSl_seg _ _ h2]
  simp

theorem splitSl_noslash (l : List Char) (h : '/' ∉ l) : splitSl l = [l] := by
  have := splitSl_append l [] h
  simpa [splitSl] using this

/-- Splitting the slash-free tail of an output path after the subtitle
component recovers the components one by one. -/
theorem splitSl_pathTail (sd cd scd pd spd q : List Char)
    (h1 : '/' ∉ sd) (h2 : '/' ∉ cd) (h3 : '/' ∉ scd) (h4 : '/' ∉ pd)
    (h5 : '/' ∉ spd) (h6 : '/' ∉ q) :
    splitSl (sd ++ '/' :: ("chap_".data ++ (cd ++ '/' :: ("subchapt_".data ++
      (scd ++ '/' :: ("part_".data ++ (pd ++ '/' :: ("subpart_".data ++
      (spd ++ '/' :: q)))))))) ) =
    [sd, "chap_".data ++ cd, "subchapt_".data ++ scd, "part_".data ++ pd,
     "subpart_".data ++ spd, q] := by
  rw [splitSl_seg _ _ h1,
    splitSl_seg2 _ _ _ (by decide) h2,
    splitSl_seg2 _ _ _ (by decide) h3,
    splitSl_seg2 _ _ _ (by decide) h4,
    splitSl_seg2 _ _ _ (by decide) h5,
    splitSl_noslash _ h6]

/-- Conditional injectivity of the output path: for a fixed title number,
two writes get the same path only when subtitle, chapter, subchapter, part
and subpart codes and the leaf code all agree, provided none of the codes
contains a slash. -/
theorem leafFilePath_inj (t : Nat) (s c sc p sp code s2 c2 sc2 p2 sp2 code2 : String)
    (hs : '/' ∉ s.data) (hc : '/' ∉ c.data) (hsc : '/' ∉ sc.data)
    (hp : '/' ∉ p.data) (hsp : '/' ∉ sp.data) (hcode : '/' ∉ code.data)
    (hs2 : '/' ∉ s2.data) (hc2 : '/' ∉ c2.data) (hsc2 : '/' ∉ sc2.data)
    (hp2 : '/' ∉ p2.data) (hsp2 : '/' ∉ sp2.data) (hcode2 : '/' ∉ code2.data)
    (h : leafFilePath t s c sc p sp code = leafFilePath t s2 c2 sc2 p2 sp2 code2) :
    s = s2 ∧ c = c2 ∧ sc = sc2 ∧ p = p2 ∧ sp = sp2 ∧ code = code2 := by
  have hq : '/' ∉ (quote code).data ++ ".json".data := by
    intro m
    rcases List.mem_append.mp m with m | m
    · exact quote_noslash code hcode m
    · exact absurd m (by decide)
  have hq2 : '/' ∉ (quote code2).data ++ ".json".data := by
    intro m
    rcases List.mem_append.mp m with m | m
    · exact quote_noslash code2 hcode2 m
    · exact absurd m (by decide)
  have hd0 := congrArg String.data h
  simp only [leafFilePath, String.data_append, List.append_assoc,
    List.cons_append] at hd0
  simp only [List.cons.injEq, eq_self_iff_true, true_and, List.nil_append] at hd0
  have hd1 := List.append_cancel_left hd0
  simp only [List.cons.injEq, eq_self_iff_true, true_and, List.nil_append] at hd1
  have hd4 : s.data ++ '/' :: ("chap_".data ++ (c.data ++
      '/' :: ("subchapt_".data ++ (sc.data ++ '/' :: ("part_".data ++ (p.data ++
      '/' :: ("subpart_".data ++ (sp.data ++
      '/' :: ((quote code).data ++ ".json".data))))))))) =
      s2.data ++ '/' :: ("chap_".data ++ (c2.data ++
      '/' :: ("subchapt_".data ++ (sc2.data ++ '/' :: ("part_".data ++ (p2.data ++
      '/' :: ("subpart_".data ++ (sp2.data ++
      '/' :: ((quote code2).data ++ ".json".data))))))))) := hd1
  have hspl := congrArg splitSl hd4
  rw [splitSl_pathTail _ _ _ _ _ _ hs hc hsc hp hsp hq,
    splitSl_pathTail _ _ _ _ _ _ hs2 hc2 hsc2 hp2 hsp2 hq2] at hspl
  simp only [List.cons.injEq, and_true] at hspl
  obtain ⟨e1, e2, e3, e4, e5, e6⟩ := hspl
  exact ⟨String.ext e1, String.ext (List.append_cancel_left e2),
    String.ext (List.append_cancel_left e3), String.ext (List.append_cancel_left e4),
    String.ext (List.append_cancel_left e5),
    quote_injective _ _ (String.ext (List.append_cancel_right e6))⟩

/-! ### Counting the writes

The part and subpart loops scan the whole document root on every subchapter
iteration, so the number of writes factors through a per-subchapter constant
computed from global scans. -/

theorem sum_map_const {α : Type} (l : List α) (k : Nat) :
    (l.map fun _ => k).sum = l.length * k := by
  induction l with
  | nil => simp
  | cons a l ih => simp [ih, Nat.succ_mul, Nat.add_comm]

theorem subpartWrites_length (t : Nat) (td : Option String) (sn cn : String)
    (cd : Option String) (scn : String) (scd : Option String) (pn : String)
    (pd : Option String) (sub_part : XNode) :
    (subpartWrites t td sn cn cd scn scd pn pd sub_part).length =
      (findAllNode "DIV8" sub_part).length + (findAllNode "DIV9" sub_part).length := by
  simp [subpartWrites]

theorem partWrites_length (t : Nat) (root : XNode) (td : Option String)
    (sn cn : String) (cd : Option String) (scn : String) (scd : Option String)
    (part : XNode) :
    (partWrites t root td sn cn cd scn scd part).length =
      subpartLeafTotal root := by
  have hf : (List.length ∘ subpartWrites t td sn cn cd scn scd
      (getAttrN part) (headDescription part)) =
      fun sp => (findAllNode "DIV8" sp).length + (findAllNode "DIV9" sp).length :=
    funext fun sp => subpartWrites_length t td sn cn cd scn scd _ _ sp
  rw [partWrites, List.length_flatMap, hf, subpartLeafTotal]

theorem subchapterWrites_length (t : Nat) (root : XNode) (td : Option String)
    (sn cn : String) (cd : Option String) (subchapter : XNode) :
    (subchapterWrites t root td sn cn cd subchapter).length =
      (findAllNode "DIV5" root).length * subpartLeafTotal root := by
  have hf : (List.length ∘ partWrites t root td sn cn cd
      (getAttrN subchapter) (headDescription subchapter)) =
      fun _ => subpartLeafTotal root :=
    funext fun part => partWrites_length t root td sn cn cd _ _ part
  rw [subchapterWrites, List.length_flatMap, hf, sum_map_const]

theorem chapterWrites_length (t : Nat) (root : XNode) (td : Option String)
    (sn : String) (chapter : XNode) :
    (chapterWrites t root td sn chapter).length =
      (findAllNode "DIV4" chapter).length *
        ((findAllNode "DIV5" root).length * subpartLeafTotal root) := by
  have hf : (List.length ∘ subchapterWrites t root td sn
      (getAttrN chapter) (headDescription chapter)) =
      fun _ => (findAllNode "DIV5" root).length * subpartLeafTotal root :=
    funext fun sc => subchapterWrites_length t root td sn _ _ sc
  rw [chapterWrites, List.length_flatMap, hf, sum_map_const]

theorem subtitleWrites_length (t : Nat) (root : XNode) (td : Option String)
    (subtitle : XNode) :
    (subtitleWrites t root td subtitle).length =
      ((findAllNode "DIV3" subtitle).map fun ch =>
        (findAllNode "DIV4" ch).length).sum *
        ((findAllNode "DIV5" root).length * subpartLeafTotal root) := by
  have hf : (List.length ∘ chapterWrites t root td (getAttrN subtitle)) =
      fun ch => (findAllNode "DIV4" ch).length *
        ((findAllNode "DIV5" root).length * subpartLeafTotal root) :=
    funext fun ch => chapterWrites_length t root td _ ch
  rw [subtitleWrites, List.length_flatMap, hf, List.sum_map_mul_right]

theorem subchapterCount_sum (root : XNode) :
    subchapterCount root = ((findAllNode "DIV2" root).map fun st =>
      ((findAllNode "DIV3" st).map fun ch =>
        (findAllNode "DIV4" ch).length).sum).sum := by
  rw [subchapterCount, List.length_flatMap]
  have hf : (List.length ∘ fun subtitle =>
      (findAllNode "DIV3" subtitle).flatMap fun chapter =>
        findAllNode "DIV4" chapter) =
      fun st => ((findAllNode "DIV3" st).map fun ch =>
        (findAllNode "DIV4" ch).length).sum := by
    funext st
    simp only [Function.comp]
    rw [List.length_flatMap]
    rfl
  rw [hf]

theorem titleWrites_length (t : Nat) (root : XNode) (td : Option String) :
    (titleWrites t root td).length =
      subchapterCount root *
        ((findAllNode "DIV5" root).length * subpartLeafTotal root) := by
  have hf : (List.length ∘ subtitleWrites t root td) =
      fun st => ((findAllNode "DIV3" st).map fun ch =>
        (findAllNode "DIV4" ch).length).sum *
        ((findAllNode "DIV5" root).length * subpartLeafTotal root) :=
    funext fun st => subtitleWrites_length t root td st
  rw [titleWrites, List.length_flatMap, hf, List.sum_map_mul_right,
    subchapterCount_sum]

/-! ### Claim theorems -/

/-- C1 (amended): part and subpart enumeration re-scans the entire title
document for all DIV5 and DIV6 nodes on every subchapter iteration, so the
number of writes is the number of subchapter iterations times the global
part count times the total leaf count over all global subparts: every part
is processed once per subchapter, and every subpart and leaf once per
(subchapter, part) pair. -/
theorem claim1_write_count (t : Nat) (root : XNode) (ws : List Write)
    (hw : fetch_and_parse_cfr_xml t root = some ws) :
    ws.length = subchapterCount root *
      ((findAllNode "DIV5" root).length * subpartLeafTotal root) := by
  rw [fetch_and_parse_cfr_xml] at hw
  cases hf : findFirstNode "DIV1" root with
  | none =>
    rw [hf] at hw
    exact absurd hw (by simp)
  | some title =>
    rw [hf] at hw
    have hws : titleWrites t root (headDescription title) = ws :=
      Option.some.inj hw
    rw [← hws]
    exact titleWrites_length t root _

theorem claim1_witness :
    ((fetch_and_parse_cfr_xml 29 oneLeafDoc).getD []).length =
      subchapterCount oneLeafDoc *
        ((findAllNode "DIV5" oneLeafDoc).length * subpartLeafTotal oneLeafDoc) :=
  claim1_write_count 29 oneLeafDoc _ rfl

/-- C1 is refuted as stated: in a document with one subchapter, two parts
and a single leaf, the leaf is written twice (once per part iteration), not
once per subchapter. -/
theorem claim1_counterexample :
    subchapterCount twoPartsDoc = 1 ∧ subpartLeafTotal twoPartsDoc = 1 ∧
    (fetch_and_parse_cfr_xml 29 twoPartsDoc).map List.length = some 2 ∧
    (fetch_and_parse_cfr_xml 29 twoPartsDoc).map (fun ws => ws.map Write.path) =
      some ["./documents/title_29/subtitle_A/chap_I/subchapt_A/part_1/subpart_A/1.json",
        "./documents/title_29/subtitle_A/chap_I/subchapt_A/part_2/subpart_A/1.json"] :=
  ⟨rfl, rfl, rfl, rfl⟩

/-- C2: on the one-leaf title document the walker writes exactly one file,
whose page content is the exact rendered string followed by the deep link,
and whose metadata carries section number 1. -/
theorem claim2_end_to_end :
    fetch_and_parse_cfr_xml 29 oneLeafDoc = some
      [{ path := "./documents/title_29/subtitle_A/chap_I/subchapt_A/part_1/subpart_A/1.json",
         page_content := "\n    # Purpose\n    \n    This part explains X.\n    \n    **[60 FR 1234]**\n    \n\n__https://www.ecfr.gov/current/title-29/subtitle-A/chapter-I/part-1/subpart-A/section-1__",
         metadata := [("title_number", .num 29),
           ("title_description", .str "Title 29"),
           ("chapter_number", .str "I"),
           ("chapter_description", .str "Chapter I"),
           ("subchapter_number", .str "A"),
           ("subchapter_description", .str "Subchapter A"),
           ("part_number", .str "1"),
           ("part_description", .str "Part 1"),
           ("sub_part_number", .str "A"),
           ("sub_part_description", .str "Subpart A"),
           ("section_number", .str "1"),
           ("section_description", .str "Purpose"),
           ("url", .str "https://www.ecfr.gov/current/title-29/subtitle-A/chapter-I/part-1/subpart-A/section-1")] }] :=
  rfl

/-- C3 (amended): the output file path is a deterministic function of the
ancestor code chain and leaf code, and it is injective for a fixed title
provided none of the codes contains a slash: two writes collide only when
subtitle, chapter, subchapter, part, subpart and leaf codes all agree. -/
theorem claim3_path_injective (t : Nat)
    (s c sc p sp code s2 c2 sc2 p2 sp2 code2 : String)
    (hs : '/' ∉ s.data) (hc : '/' ∉ c.data) (hsc : '/' ∉ sc.data)
    (hp : '/' ∉ p.data) (hsp : '/' ∉ sp.data) (hcode : '/' ∉ code.data)
    (hs2 : '/' ∉ s2.data) (hc2 : '/' ∉ c2.data) (hsc2 : '/' ∉ sc2.data)
    (hp2 : '/' ∉ p2.data) (hsp2 : '/' ∉ sp2.data) (hcode2 : '/' ∉ code2.data)
    (h : leafFilePath t s c sc p sp code = leafFilePath t s2 c2 sc2 p2 sp2 code2) :
    s = s2 ∧ c = c2 ∧ sc = sc2 ∧ p = p2 ∧ sp = sp2 ∧ code = code2 :=
  leafFilePath_inj t s c sc p sp code s2 c2 sc2 p2 sp2 code2
    hs hc hsc hp hsp hcode hs2 hc2 hsc2 hp2 hsp2 hcode2 h

theorem claim3_witness :
    ("A" : String) = "A" ∧ ("I" : String) = "I" ∧ ("B" : String) = "B" ∧
    ("1" : String) = "1" ∧ ("C" : String) = "C" ∧ ("5" : String) = "5" :=
  claim3_path_injective 29 "A" "I" "B" "1" "C" "5" "A" "I" "B" "1" "C" "5"
    (by decide) (by decide) (by decide) (by decide) (by decide) (by decide)
    (by decide) (by decide) (by decide) (by decide) (by decide) (by decide) rfl

/-- C3 is refuted as stated: two distinct leaves with different subpart and
leaf codes are written to the identical path, and the single leaf of the
two-part document is written twice rather than once. -/
theorem claim3_counterexample :
    (fetch_and_parse_cfr_xml 29 slashDoc).map (fun ws => ws.map Write.path) =
      some ["./documents/title_29/subtitle_A/chap_I/subchapt_A/part_1/subpart_S/a/b.json",
        "./documents/title_29/subtitle_A/chap_I/subchapt_A/part_1/subpart_S/a/b.json"] ∧
    (fetch_and_parse_cfr_xml 29 slashDoc).map (fun ws => ws.map fun w =>
        (w.metadata.lookup "sub_part_number", w.metadata.lookup "section_number")) =
      some [(some (JVal.str "S"), some (JVal.str "a/b")),
        (some (JVal.str "S/a"), some (JVal.str "b"))] :=
  ⟨rfl, rfl⟩

/-- C4 (amended): the metadata of every write carries the code and
description of title, chapter, subchapter, part and subpart plus the leaf
code, description and URL, and has no subtitle_number or
subtitle_description entries: its keys are exactly the section or the
appendix key list.  (The subtitle code still reaches the output embedded in
the deep-link url value, the page content and the file path.) -/
theorem claim4_metadata_keys (t : Nat) (root : XNode) (ws : List Write)
    (w : Write) (hw : fetch_and_parse_cfr_xml t root = some ws)
    (hmem : w ∈ ws) :
    w.metadata.map Prod.fst = sectionMetaKeys ∨
      w.metadata.map Prod.fst = appendixMetaKeys := by
  rw [fetch_and_parse_cfr_xml] at hw
  cases hf : findFirstNode "DIV1" root with
  | none =>
    rw [hf] at hw
    exact absurd hw (by simp)
  | some title =>
    rw [hf] at hw
    have hws : titleWrites t root (headDescription title) = ws :=
      Option.some.inj hw
    rw [← hws] at hmem
    simp only [titleWrites, subtitleWrites, chapterWrites, subchapterWrites,
      partWrites, subpartWrites, List.mem_flatMap, List.mem_append,
      List.mem_map] at hmem
    obtain ⟨st, -, ch, -, sc, -, part, -, sp, -, hcase⟩ := hmem
    rcases hcase with ⟨sec, -, rfl⟩ | ⟨app, -, rfl⟩
    · exact Or.inl rfl
    · exact Or.inr rfl

set_option maxRecDepth 4096 in
theorem claim4_witness :
    ((((fetch_and_parse_cfr_xml 29 oneLeafDoc).getD []).headD
      ⟨"", "", []⟩).metadata.map Prod.fst = sectionMetaKeys) ∨
    ((((fetch_and_parse_cfr_xml 29 oneLeafDoc).getD []).headD
      ⟨"", "", []⟩).metadata.map Prod.fst = appendixMetaKeys) :=
  claim4_metadata_keys 29 oneLeafDoc _ _ rfl (by decide)

/-- C4 is refuted as stated: on a document whose subtitle code XSUB occurs
at no other level, the single write carries exactly the section keys, which
include no subtitle key, and no metadata entry carries the subtitle code as
its own value.  The subtitle code does survive embedded inside the
deep-link url value (and hence in the page content), so only the dedicated
subtitle fields are missing, not every trace of the code. -/
theorem claim4_counterexample :
    (fetch_and_parse_cfr_xml 29 uniqueSubtitleDoc).map
        (fun ws => ws.map fun w => w.metadata.map Prod.fst) =
      some [sectionMetaKeys] ∧
    ("subtitle_number" ∈ sectionMetaKeys) = False ∧
    ("subtitle_description" ∈ sectionMetaKeys) = False ∧
    (fetch_and_parse_cfr_xml 29 uniqueSubtitleDoc).map
        (fun ws => ws.all fun w => w.metadata.all fun kv =>
          decide (kv.2 ≠ JVal.str "XSUB")) = some true ∧
    (fetch_and_parse_cfr_xml 29 uniqueSubtitleDoc).map
        (fun ws => ws.map fun w => w.metadata.lookup "url") =
      some [some (JVal.str
        "https://www.ecfr.gov/current/title-29/subtitle-XSUB/chapter-I/part-1/subpart-B/section-1")] := by
  refine ⟨rfl, ?_, ?_, rfl, rfl⟩ <;> simp [sectionMetaKeys]

/-- C5 (amended): for a leaf whose heading and citation both carry string
content, the rendered Markdown starts with the indented heading line (a
newline, four spaces, a hash, a space, then the heading) and ends with the
double-starred citation followed by a newline and four spaces. -/
theorem claim5_render_frame (e hd ct : XNode) (h c : String)
    (hhd : findFirstNode "HEAD" e = some hd) (hhs : nodeString hd = some h)
    (hct : findFirstNode "CITA" e = some ct) (hcs : nodeString ct = some c) :
    (∃ rest, process_cfr_xml_element e = "\n    # " ++ h ++ rest) ∧
    (∃ init, process_cfr_xml_element e = init ++ ("**" ++ c ++ "**\n    ")) := by
  have ht : render_title e = h := by simp [render_title, hhd, hhs, pyShow]
  have hcta : render_cita e = c := by simp [render_cita, hct, hcs, pyShow]
  constructor
  · refine ⟨"\n    \n    " ++ render_text e ++ "\n    \n    **" ++
      render_cita e ++ "**\n    ", ?_⟩
    simp only [process_cfr_xml_element, ht, String.append_assoc]
  · refine ⟨"\n    # " ++ render_title e ++ "\n    \n    " ++ render_text e ++
      "\n    \n    ", ?_⟩
    have hsplit : ("\n    \n    **" : String) = "\n    \n    " ++ "**" := rfl
    simp only [process_cfr_xml_element, hcta, hsplit, String.append_assoc]

theorem claim5_witness :
    (∃ rest, process_cfr_xml_element purposeSection = "\n    # " ++ "Purpose" ++ rest) ∧
    (∃ init, process_cfr_xml_element purposeSection =
      init ++ ("**" ++ "[60 FR 1234]" ++ "**\n    ")) :=
  claim5_render_frame purposeSection (.elem "HEAD" [] [.text "Purpose"])
    (.elem "CITA" [] [.text "[60 FR 1234]"]) "Purpose" "[60 FR 1234]"
    rfl rfl rfl rfl

/-- C5 is refuted as stated: the rendered string does not literally start
with a hash (it starts with a newline and indentation) and does not
literally end with the citation (four trailing spaces follow it). -/
theorem claim5_counterexample :
    (¬ ∃ rest, process_cfr_xml_element purposeSection = "# Purpose" ++ rest) ∧
    (¬ ∃ init, process_cfr_xml_element purposeSection = init ++ "**[60 FR 1234]**") := by
  constructor
  · rintro ⟨rest, hr⟩
    rw [show process_cfr_xml_element purposeSection =
      "\n    # Purpose\n    \n    This part explains X.\n    \n    **[60 FR 1234]**\n    "
      from rfl] at hr
    have hd := congrArg String.data hr
    simp [String.data_append] at hd
  · rintro ⟨init, hi⟩
    have hd := congrArg (fun s : String => s.data.getLast?) hi
    simp only [String.data_append] at hd
    rw [List.getLast?_append_of_ne_nil _ (by decide)] at hd
    exact absurd hd (by decide)

/-- C6: a missing heading renders as the literal NO TITLE and a missing
citation as the literal NO CITE, and rendering still produces the full
Markdown fragment. -/
theorem claim6_placeholders (e : XNode) :
    (findFirstNode "HEAD" e = none → render_title e = "NO TITLE" ∧
      ∃ rest, process_cfr_xml_element e = "\n    # NO TITLE" ++ rest) ∧
    (findFirstNode "CITA" e = none → render_cita e = "NO CITE" ∧
      ∃ init, process_cfr_xml_element e = init ++ "**NO CITE**\n    ") := by
  constructor
  · intro h
    have ht : render_title e = "NO TITLE" := by simp [render_title, h]
    refine ⟨ht, "\n    \n    " ++ render_text e ++ "\n    \n    **" ++
      render_cita e ++ "**\n    ", ?_⟩
    have hsplit : ("\n    # NO TITLE" : String) = "\n    # " ++ "NO TITLE" := rfl
    simp only [process_cfr_xml_element, ht, hsplit, String.append_assoc]
  · intro h
    have hc : render_cita e = "NO CITE" := by simp [render_cita, h]
    refine ⟨hc, "\n    # " ++ render_title e ++ "\n    \n    " ++
      render_text e ++ "\n    \n    ", ?_⟩
    have hsplit1 : ("\n    \n    **" : String) = "\n    \n    " ++ "**" := rfl
    have hsplit2 : ("**NO CITE**\n    " : String) = "**" ++ ("NO CITE" ++ "**\n    ") := rfl
    simp only [process_cfr_xml_element, hc, hsplit1, hsplit2, String.append_assoc]

theorem claim6_witness :
    (render_title bareSection = "NO TITLE" ∧
      ∃ rest, process_cfr_xml_element bareSection = "\n    # NO TITLE" ++ rest) ∧
    (render_cita bareSection = "NO CITE" ∧
      ∃ init, process_cfr_xml_element bareSection = init ++ "**NO CITE**\n    ") :=
  ⟨(claim6_placeholders bareSection).1 rfl, (claim6_placeholders bareSection).2 rfl⟩

/-- C7: three paragraphs with contents A, absent and B render as the body
A, newline, newline, newline, B: the absent middle paragraph contributes an
empty line and paragraphs are joined by single newlines. -/
theorem claim7_paragraph_join :
    render_text threeParaSection = "A\n\n\nB" ∧
    process_cfr_xml_element threeParaSection =
      "\n    # NO TITLE\n    \n    A\n\n\nB\n    \n    **NO CITE**\n    " :=
  ⟨rfl, rfl⟩

/-- C8 (amended): both deep-link builders are injective in the leaf code
for a fixed ancestor chain, and percent-encode the leaf code except for the
characters of the default safe set, which includes the slash: a space is
encoded as %20, while a slash passes through unencoded. -/
theorem claim8_deeplink :
    (∀ (t : Nat) (s c p sp n1 n2 : String),
      get_ecfr_link_to_section t s c p sp n1 = get_ecfr_link_to_section t s c p sp n2 →
        n1 = n2) ∧
    (∀ (t : Nat) (s c p sp n1 n2 : String),
      get_ecfr_link_to_appendix t s c p sp n1 = get_ecfr_link_to_appendix t s c p sp n2 →
        n1 = n2) ∧
    quote "7 a" = "7%20a" ∧
    get_ecfr_link_to_section 29 "A" "I" "1" "A" "7 a" =
      "https://www.ecfr.gov/current/title-29/subtitle-A/chapter-I/part-1/subpart-A/section-7%20a" ∧
    get_ecfr_link_to_appendix 29 "A" "I" "1" "A" "7 a" =
      "https://www.ecfr.gov/current/title-29/subtitle-A/chapter-I/part-1/subpart-A/appendix-7%20a" := by
  refine ⟨?_, ?_, rfl, rfl, rfl⟩
  · intro t s c p sp n1 n2 h
    have hd := congrArg String.data h
    simp only [get_ecfr_link_to_section, String.data_append, List.append_assoc,
      List.cons_append] at hd
    simp only [List.cons.injEq, eq_self_iff_true, true_and, List.nil_append] at hd
    replace hd := List.append_cancel_left hd
    simp only [List.cons.injEq, eq_self_iff_true, true_and, List.nil_append] at hd
    replace hd := List.append_cancel_left hd
    simp only [List.cons.injEq, eq_self_iff_true, true_and, List.nil_append] at hd
    replace hd := List.append_cancel_left hd
    simp only [List.cons.injEq, eq_self_iff_true, true_and, List.nil_append] at hd
    replace hd := List.append_cancel_left hd
    simp only [List.cons.injEq, eq_self_iff_true, true_and, List.nil_append] at hd
    replace hd := List.append_cancel_left hd
    simp only [List.cons.injEq, eq_self_iff_true, true_and, List.nil_append] at hd
    exact quote_injective _ _ (String.ext hd)
  · intro t s c p sp n1 n2 h
    have hd := congrArg String.data h
    simp only [get_ecfr_link_to_appendix, String.data_append, List.append_assoc,
      List.cons_append] at hd
    simp only [List.cons.injEq, eq_self_iff_true, true_and, List.nil_append] at hd
    replace hd := List.append_cancel_left hd
    simp only [List.cons.injEq, eq_self_iff_true, true_and, List.nil_append] at hd
    replace hd := List.append_cancel_left hd
    simp only [List.cons.injEq, eq_self_iff_true, true_and, List.nil_append] at hd
    replace hd := List.append_cancel_left hd
    simp only [List.cons.injEq, eq_self_iff_true, true_and, List.nil_append] at hd
    replace hd := List.append_cancel_left hd
    simp only [List.cons.injEq, eq_self_iff_true, true_and, List.nil_append] at hd
    replace hd := List.append_cancel_left hd
    simp only [List.cons.injEq, eq_self_iff_true, true_and, List.nil_append] at hd
    exact quote_injective _ _ (String.ext hd)

theorem claim8_witness : ("5" : String) = "5" ∧ quote "7 a" = "7%20a" :=
  ⟨claim8_deeplink.1 29 "A" "I" "1" "A" "5" "5" rfl, claim8_deeplink.2.2.1⟩

/-- C8 is refuted as stated: a leaf code containing a slash is not
percent-encoded, because the default safe set of the quoting function keeps
the slash. -/
theorem claim8_counterexample :
    get_ecfr_link_to_section 29 "A" "I" "1" "A" "a/b" =
      "https://www.ecfr.gov/current/title-29/subtitle-A/chapter-I/part-1/subpart-A/section-a/b" ∧
    quote "a/b" = "a/b" ∧ ((quote "a/b").data.contains '%') = false :=
  ⟨rfl, rfl, rfl⟩

/-- C9: when the full-title response status is not 200 the XML acquisition
returns None (logged in the source), with no exception and no retry. -/
theorem claim9_fetch_failure (r : Response) (h : r.status_code ≠ 200) :
    get_cfr_title_xml r = none := by
  simp [get_cfr_title_xml, h]

theorem claim9_witness :
    (404 : Nat) ≠ 200 ∧ get_cfr_title_xml ⟨404, "Not Found"⟩ = none :=
  ⟨by decide, claim9_fetch_failure ⟨404, "Not Found"⟩ (by decide)⟩

/-- C10: a heading element that is present but has no single string content
renders as the literal None (Python str of None), so the heading line of
the Markdown is a hash followed by None. -/
theorem claim10_none_title (e hd : XNode)
    (hfind : findFirstNode "HEAD" e = some hd) (hstr : nodeString hd = none) :
    render_title e = "None" ∧
    ∃ rest, process_cfr_xml_element e = "\n    # None" ++ rest := by
  have ht : render_title e = "None" := by simp [render_title, hfind, hstr, pyShow]
  refine ⟨ht, "\n    \n    " ++ render_text e ++ "\n    \n    **" ++
    render_cita e ++ "**\n    ", ?_⟩
  have hsplit : ("\n    # None" : String) = "\n    # " ++ "None" := rfl
  simp only [process_cfr_xml_element, ht, hsplit, String.append_assoc]

theorem claim10_witness :
    render_title markupHeadSection = "None" ∧
    ∃ rest, process_cfr_xml_element markupHeadSection = "\n    # None" ++ rest :=
  claim10_none_title markupHeadSection
    (.elem "HEAD" [] [.elem "E" [] [.text "Pur"], .text "pose"]) rfl rfl

end CFR
